import Mathlib

/-!
Verification of the employee-management REST backend
(`app/auth.py`, `app/crud.py`, `app/main.py`, `app/models.py`, `app/schemas.py`)
as a shallow embedding in Lean 4.

Conventions of the embedding:
* machine state (the SQL tables) is a `List` of row structures; a mutating
  operation takes the committed table and returns the outcome paired with the
  committed table after the call;
* commits can fail: `Fault.integrity` stands for SQLAlchemy `IntegrityError`,
  `Fault.storage` for any other `SQLAlchemyError`.  In SQLAlchemy,
  `IntegrityError` is a subclass of `SQLAlchemyError`, so an
  `except SQLAlchemyError` branch in the source also catches integrity
  violations; the embedding mirrors that in each handler;
* HTTP failures are `HTTPError` values (status code plus detail string);
* the functions of `app/auth.py` as present in the repository are embedded
  under the `AuthStub` namespace; the richer auth module that `app/main.py`,
  `app/crud.py`, `app/init_admin.py` and the test-suite import
  (`get_password_hash`, db-backed `authenticate_user`, `create_user`,
  `get_current_active_user`, `get_current_superuser`) is absent from the
  sources and is modelled from the spec under the `SpecAuth` namespace; each
  such definition carries a doc comment starting `Modelled from the spec:`.
-/

/-- An HTTP error outcome: `HTTPException(status_code, detail)`. -/
structure HTTPError where
  status_code : Nat
  detail : String
deriving DecidableEq

/-- The principal dictionary returned by the stub auth module. -/
structure Principal where
  username : String
deriving DecidableEq

/-- Status code of an erroneous outcome, `none` on success. -/
def errStatus {α : Type} : Except HTTPError α × β → Option Nat
  | (Except.error e, _) => some e.status_code
  | (Except.ok _, _) => none

namespace AuthStub

/-- `app/auth.py` `authenticate_user(username, password)`: returns the fixed
admin principal for the hard-coded credential pair, `False` (here `none`)
otherwise. -/
def authenticate_user (username password : String) : Option Principal :=
  if username = "admin" ∧ password = "password" then some ⟨"admin"⟩ else none

/-- `app/auth.py` `create_access_token(data)`: ignores its argument and
returns the constant string token. -/
def create_access_token (_data : List (String × String)) : String :=
  "secret-token"

/-- `app/auth.py` `get_current_user(token)`: accepts exactly the constant
token and yields the fixed admin principal; otherwise raises 401. -/
def get_current_user (token : String) : Except HTTPError Principal :=
  if token = "secret-token" then Except.ok ⟨"admin"⟩
  else Except.error ⟨401, "Could not validate credentials"⟩

end AuthStub




/-- `app/models.py` `User` row.  Timestamps are abstract clock values. -/
structure UserRow where
  id : Nat
  username : String
  email : String
  hashed_password : String
  full_name : Option String
  is_active : Bool
  is_superuser : Bool
  created_at : Nat
  updated_at : Option Nat
deriving DecidableEq

/-- `app/models.py` `Employee` row.  `name` and `email` are `NOT NULL`
columns, but the ORM lets a pending object hold `NULL` there until commit, so
the row fields are `Option`s and the commit re-checks the constraints. -/
structure EmpRow where
  id : Nat
  name : Option String
  email : Option String
  department : Option String
  role : Option String
  date_joined : Nat
deriving DecidableEq

/-- `app/schemas.py` `User` response schema: `UserBase` fields plus `id`,
`is_active`, `is_superuser`, `created_at`, `updated_at`.  It has no
`hashed_password` field (only the unused `UserInDB` adds one). -/
structure UserSchema where
  username : String
  email : String
  full_name : Option String
  id : Nat
  is_active : Bool
  is_superuser : Bool
  created_at : Nat
  updated_at : Option Nat
deriving DecidableEq

/-- Serialization of a `User` row through `response_model=schemas.User`
(`from_attributes`): each schema field is read off the row attribute of the
same name. -/
def toUserSchema (u : UserRow) : UserSchema :=
  ⟨u.username, u.email, u.full_name, u.id, u.is_active, u.is_superuser,
   u.created_at, u.updated_at⟩


/-- Injected storage behaviour at commit time: `normal` lets the constraint
check decide, `integrity` forces an `IntegrityError` (e.g. a concurrent
writer won a uniqueness race), `storage` forces a non-integrity
`SQLAlchemyError`. -/
inductive Fault
  | normal
  | integrity
  | storage
deriving DecidableEq

/-- The two commit failure classes.  `DbError.integrity` corresponds to
SQLAlchemy `IntegrityError`, which is a subclass of `SQLAlchemyError`
(`DbError.storage` stands for the remaining subclasses). -/
inductive DbError
  | integrity
  | storage
deriving DecidableEq

/-- Constraints of the `employees` table: `name` and `email` are `NOT NULL`
and `email` is `UNIQUE`. -/
def empTableOk (rows : List EmpRow) : Prop :=
  (∀ r ∈ rows, r.name ≠ none ∧ r.email ≠ none) ∧ (rows.map (·.email)).Nodup

instance decEmpTableOk : DecidablePred empTableOk := fun rows => by
  unfold empTableOk; infer_instance

/-- Constraints of the `users` table: `username` and `email` are `UNIQUE`. -/
def userTableOk (rows : List UserRow) : Prop :=
  (rows.map (·.username)).Nodup ∧ (rows.map (·.email)).Nodup

instance decUserTableOk : DecidablePred userTableOk := fun rows => by
  unfold userTableOk; infer_instance

/-- Commit of a staged `employees` table. -/
def commitEmp : Fault → List EmpRow → Except DbError (List EmpRow)
  | Fault.integrity, _ => Except.error DbError.integrity
  | Fault.storage, _ => Except.error DbError.storage
  | Fault.normal, staged =>
      if empTableOk staged then Except.ok staged else Except.error DbError.integrity

/-- Commit of a staged `users` table. -/
def commitUser : Fault → List UserRow → Except DbError (List UserRow)
  | Fault.integrity, _ => Except.error DbError.integrity
  | Fault.storage, _ => Except.error DbError.storage
  | Fault.normal, staged =>
      if userTableOk staged then Except.ok staged else Except.error DbError.integrity

/-- Autoincrement primary key for a new employee. -/
def nextEmpId (db : List EmpRow) : Nat :=
  (db.map (·.id)).foldr max 0 + 1

/-- `app/schemas.py` `EmployeeCreate` (validated payload). -/
structure EmployeeCreate where
  name : String
  email : String
  department : Option String
  role : Option String
deriving DecidableEq

/-- `app/schemas.py` `EmployeeUpdate`: every field is optional, and a field
that is present may itself carry an explicit `null` — `model_dump` with
`exclude_unset=True` keeps explicit nulls but drops omitted fields, so the
outer `Option` is presence and the inner one nullability. -/
structure EmployeeUpdate where
  name : Option (Option String)
  email : Option (Option String)
  department : Option (Option String)
  role : Option (Option String)
deriving DecidableEq

/-- The `setattr` loop of `crud.update_employee`: fields present in
`update_data` overwrite the row, omitted fields are untouched. -/
def applyEmpUpdate (r : EmpRow) (u : EmployeeUpdate) : EmpRow :=
  { r with
    name := u.name.getD r.name
    email := u.email.getD r.email
    department := u.department.getD r.department
    role := u.role.getD r.role }

/-- `crud.get_employee`: first row with the given id. -/
def get_employee (db : List EmpRow) (eid : Nat) : Option EmpRow :=
  db.find? (fun r => r.id == eid)

/-- The pending row built by `crud.create_employee` before commit. -/
def newEmpRow (now : Nat) (db : List EmpRow) (e : EmployeeCreate) : EmpRow :=
  ⟨nextEmpId db, some e.name, some e.email, e.department, e.role, now⟩

/-- `crud.create_employee`: uniqueness pre-check on email, then insert and
commit; `IntegrityError` at commit is answered with 400, other storage
errors with 500, both after rollback. -/
def create_employee (fault : Fault) (now : Nat) (db : List EmpRow)
    (e : EmployeeCreate) : Except HTTPError EmpRow × List EmpRow :=
  if db.any (fun r => r.email == some e.email) then
    (Except.error ⟨400, "Email already registered"⟩, db)
  else
    match commitEmp fault (db ++ [newEmpRow now db e]) with
    | Except.ok db2 => (Except.ok (newEmpRow now db e), db2)
    | Except.error DbError.integrity => (Except.error ⟨400, "Email already exists"⟩, db)
    | Except.error DbError.storage => (Except.error ⟨500, "Database error occurred"⟩, db)

/-- The email-conflict pre-check of `crud.update_employee`: applies only
when the payload carries an email different from the current one. -/
def empEmailConflict (db : List EmpRow) (eid : Nat) (u : EmployeeUpdate)
    (r : EmpRow) : Bool :=
  match u.email with
  | some v => v != r.email && db.any (fun r2 => r2.email == v && r2.id != eid)
  | none => false

/-- The staged table of `crud.update_employee`: the row with the given id
goes through the `setattr` loop, the rest is untouched. -/
def stagedEmp (db : List EmpRow) (eid : Nat) (u : EmployeeUpdate) : List EmpRow :=
  db.map (fun row => if row.id == eid then applyEmpUpdate row u else row)

/-- `crud.update_employee`: 404 when absent; email-conflict pre-check only
when the payload carries an email different from the current one; then the
`setattr` loop, commit, and the same two rollback branches as creation. -/
def update_employee (fault : Fault) (db : List EmpRow) (eid : Nat)
    (u : EmployeeUpdate) : Except HTTPError EmpRow × List EmpRow :=
  match get_employee db eid with
  | none => (Except.error ⟨404, "Employee not found"⟩, db)
  | some r =>
    if empEmailConflict db eid u r then (Except.error ⟨400, "Email already registered"⟩, db)
    else
      match commitEmp fault (stagedEmp db eid u) with
      | Except.ok db2 => (Except.ok (applyEmpUpdate r u), db2)
      | Except.error DbError.integrity => (Except.error ⟨400, "Email already exists"⟩, db)
      | Except.error DbError.storage => (Except.error ⟨500, "Database error occurred"⟩, db)

/-- `crud.delete_employee`: 404 when absent; the handler there catches only
`SQLAlchemyError`, so both commit failure classes surface as 500 after
rollback. -/
def delete_employee (fault : Fault) (db : List EmpRow) (eid : Nat) :
    Except HTTPError Bool × List EmpRow :=
  match get_employee db eid with
  | none => (Except.error ⟨404, "Employee not found"⟩, db)
  | some _ =>
    match commitEmp fault (db.filter (fun r => r.id != eid)) with
    | Except.ok db2 => (Except.ok true, db2)
    | Except.error _ => (Except.error ⟨500, "Database error occurred"⟩, db)

/-- Modelled from the spec: `get_password_hash` is imported from `app.auth`
by `app/crud.py`, `app/init_admin.py` and the tests but is absent from the
shipped `app/auth.py`; §4.1 asks for a one-way hash with deterministic
verification.  A concrete injective stand-in keeps the embedding
executable. -/
def hashPassword (p : String) : String :=
  String.append "pbkdf2$" p

/-- Modelled from the spec (§4.1): `verify(password, hash)` recomputes and
compares. -/
def verifyPassword (p h : String) : Bool :=
  h == hashPassword p

/-- `app/schemas.py` `UserUpdate` (validated payload; `username` is not
updatable).  Presence-only: explicit nulls on these fields are not exercised
by any property below. -/
structure UserUpdate where
  email : Option String
  full_name : Option String
  password : Option String
  is_active : Option Bool
deriving DecidableEq

/-- `crud.get_user`: first row with the given id. -/
def get_user (db : List UserRow) (uid : Nat) : Option UserRow :=
  db.find? (fun r => r.id == uid)

/-- `crud.get_users`: plain offset pagination over the table, no ordering
clause. -/
def get_users (db : List UserRow) (skip limit : Nat) : List UserRow :=
  (db.drop skip).take limit

/-- The `setattr` loop of `crud.update_user`: present fields overwrite the
row (`password` arrives as its hash), and the `onupdate` column stamp is
applied. -/
def applyUserUpdate (now : Nat) (r : UserRow) (u : UserUpdate) : UserRow :=
  { r with
    email := u.email.getD r.email
    full_name := match u.full_name with | some v => some v | none => r.full_name
    hashed_password :=
      match u.password with | some p => hashPassword p | none => r.hashed_password
    is_active := u.is_active.getD r.is_active
    updated_at := some now }

/-- The staged table of `crud.update_user`. -/
def stagedUser (now : Nat) (db : List UserRow) (uid : Nat) (u : UserUpdate) :
    List UserRow :=
  db.map (fun row => if row.id == uid then applyUserUpdate now row u else row)

/-- `crud.update_user`: 404 when absent, then the `setattr` loop (passwords
hashed first) and commit.  There is no uniqueness pre-check, and the handler
catches `SQLAlchemyError` — which includes `IntegrityError` — so any commit
failure, a uniqueness violation included, surfaces as 500 after rollback. -/
def update_user (fault : Fault) (now : Nat) (db : List UserRow) (uid : Nat)
    (u : UserUpdate) : Except HTTPError UserRow × List UserRow :=
  match get_user db uid with
  | none => (Except.error ⟨404, "User not found"⟩, db)
  | some r =>
    match commitUser fault (stagedUser now db uid u) with
    | Except.ok db2 => (Except.ok (applyUserUpdate now r u), db2)
    | Except.error _ => (Except.error ⟨500, "Database error occurred"⟩, db)

/-- Case-fold a string to its character list. -/
def lowerChars (s : String) : List Char :=
  s.toLower.toList

/-- Whether the first list is a prefix of the second. -/
def leadMatch : List Char → List Char → Bool
  | [], _ => true
  | _ :: _, [] => false
  | p :: ps, h :: hs => p == h && leadMatch ps hs

/-- Whether the first list occurs inside the second. -/
def hasSub : List Char → List Char → Bool
  | pat, [] => leadMatch pat []
  | pat, h :: hs => leadMatch pat (h :: hs) || hasSub pat hs

/-- SQL `col ILIKE '%pat%'`: case-insensitive containment; a `NULL` column
never matches. -/
def ilikeCol (col : Option String) (pat : String) : Bool :=
  match col with
  | none => false
  | some s => hasSub (lowerChars pat) (lowerChars s)

/-- The filter pipeline of `crud.get_employees` / `get_employees_count`.
`if department:` in Python skips the filter for `None` and for the empty
string alike. -/
def empMatches (department role search : Option String) (r : EmpRow) : Bool :=
  (match department with
   | some d => if d = "" then true else ilikeCol r.department d
   | none => true) &&
  (match role with
   | some ro => if ro = "" then true else ilikeCol r.role ro
   | none => true) &&
  (match search with
   | some s => if s = "" then true else (ilikeCol r.name s || ilikeCol r.email s)
   | none => true)

/-- The `ORDER BY id` relation. -/
def empLe (a b : EmpRow) : Prop := a.id ≤ b.id

instance : DecidableRel empLe := fun a b => Nat.decLe a.id b.id

instance : IsTotal EmpRow empLe := ⟨fun a b => Nat.le_total a.id b.id⟩

instance : IsTrans EmpRow empLe := ⟨fun _ _ _ => Nat.le_trans⟩

/-- `crud.get_employees`: filter, order by id ascending, offset, limit. -/
def get_employees (db : List EmpRow) (skip limit : Nat)
    (department role search : Option String) : List EmpRow :=
  (((db.filter (empMatches department role search)).insertionSort empLe).drop skip).take limit

/-- `crud.get_employees_count`: number of rows passing the same filters. -/
def get_employees_count (db : List EmpRow)
    (department role search : Option String) : Nat :=
  (db.filter (empMatches department role search)).length

/-- `app/schemas.py` `EmployeeList` response. -/
structure EmployeeListResponse where
  total : Nat
  page : Nat
  limit : Nat
  employees : List EmpRow
deriving DecidableEq

/-- `main.list_employees`: `skip = (page - 1) * limit`, then the two
repository calls with identical filters. -/
def list_employees (db : List EmpRow) (page limit : Nat)
    (department role search : Option String) : EmployeeListResponse :=
  ⟨get_employees_count db department role search, page, limit,
   get_employees db ((page - 1) * limit) limit department role search⟩

namespace SpecAuth

/-- Modelled from the spec (§4.2): a presented bearer token either fails to
decode at all or carries a subject, an absolute expiry, and a signature. -/
inductive PresentedToken
  | malformed
  | wellFormed (sub : String) (exp : Nat) (sig : Nat)
deriving DecidableEq

/-- Modelled from the spec (§4.2): signature of the payload under the
process-wide key (a concrete stand-in; `validate` only compares it). -/
def signPayload (key : Nat) (sub : String) (exp : Nat) : Nat :=
  key * 2 + exp * 3 + sub.length

/-- Modelled from the spec (§4.2): `issue(subject, ttl)` embeds the subject
and the absolute expiry `now + ttl`, signed with the key. -/
def issue (key : Nat) (sub : String) (now ttl : Nat) : PresentedToken :=
  PresentedToken.wellFormed sub (now + ttl) (signPayload key sub (now + ttl))

/-- Modelled from the spec (§4.2): `validate` fails iff the token is
malformed, the signature mismatches, or the current time strictly exceeds
the embedded expiry — no grace period. -/
def validate (key now : Nat) : PresentedToken → Option String
  | PresentedToken.malformed => none
  | PresentedToken.wellFormed sub exp sig =>
      if sig = signPayload key sub exp then
        if now ≤ exp then some sub else none
      else none

/-- Modelled from the spec (§4.3): `get_current_active_user`, the
current-principal resolution that `app/main.py` imports from `app.auth` but
which is absent from the shipped module — resolves the validated subject to
a `User` row and fails with 401 when the token is invalid or the user is
missing or inactive. -/
def get_current_active_user (key now : Nat) (db : List UserRow)
    (t : PresentedToken) : Except HTTPError UserRow :=
  match validate key now t with
  | none => Except.error ⟨401, "Could not validate credentials"⟩
  | some sub =>
    match db.find? (fun u => u.username == sub) with
    | none => Except.error ⟨401, "Could not validate credentials"⟩
    | some u =>
      if u.is_active then Except.ok u
      else Except.error ⟨401, "Inactive user"⟩

/-- Modelled from the spec (§4.3): `get_current_superuser`, the gate of the
user-administration endpoints, absent from the shipped module — any resolved
non-superuser principal is rejected with 403, regardless of active
status. -/
def get_current_superuser (key now : Nat) (db : List UserRow)
    (t : PresentedToken) : Except HTTPError UserRow :=
  match validate key now t with
  | none => Except.error ⟨401, "Could not validate credentials"⟩
  | some sub =>
    match db.find? (fun u => u.username == sub) with
    | none => Except.error ⟨401, "Could not validate credentials"⟩
    | some u =>
      if u.is_superuser then Except.ok u
      else Except.error ⟨403, "Not enough permissions"⟩

/-- Modelled from the spec (§4.3): the db-backed `authenticate_user` that
`main.login` calls (the shipped module holds only a two-argument hard-coded
stub) — looks the user up by username and verifies the password against the
stored hash; both failure causes return the same falsy value. -/
def authenticate_user (db : List UserRow) (username password : String) :
    Option UserRow :=
  match db.find? (fun u => u.username == username) with
  | none => none
  | some u => if verifyPassword password u.hashed_password then some u else none

/-- `app/schemas.py` `Token` response, with the modelled token as payload. -/
structure TokenResponse where
  access_token : PresentedToken
  token_type : String
  expires_in : Nat
deriving DecidableEq

/-- `main.login` over the modelled authenticator: a falsy authentication
outcome is answered with one fixed 401 response; success issues a token for
the configured TTL. -/
def login (key now ttlMinutes : Nat) (db : List UserRow)
    (username password : String) : Except HTTPError TokenResponse :=
  match authenticate_user db username password with
  | none => Except.error ⟨401, "Incorrect username or password"⟩
  | some u =>
      Except.ok ⟨issue key u.username now (ttlMinutes * 60), "bearer", ttlMinutes * 60⟩

/-- Autoincrement primary key for a new user. -/
def nextUserId (db : List UserRow) : Nat :=
  (db.map (·.id)).foldr max 0 + 1

/-- `app/schemas.py` `UserCreate` (validated payload). -/
structure UserCreate where
  username : String
  email : String
  password : String
  full_name : Option String
deriving DecidableEq

/-- Modelled from the spec: `auth.create_user`, called by `main.register`
but absent from the shipped module — checks username then email uniqueness
(the tests pin the two 400 details), stores only the hash of the password,
and defaults to an active non-superuser row. -/
def create_user (now : Nat) (db : List UserRow) (p : UserCreate) :
    Except HTTPError UserRow × List UserRow :=
  if db.any (fun u => u.username == p.username) then
    (Except.error ⟨400, "Username already registered"⟩, db)
  else if db.any (fun u => u.email == p.email) then
    (Except.error ⟨400, "Email already registered"⟩, db)
  else
    let u : UserRow :=
      ⟨nextUserId db, p.username, p.email, hashPassword p.password, p.full_name,
       true, false, now, none⟩
    (Except.ok u, db ++ [u])

/-- `main.register`: the created row is shaped through
`response_model=schemas.User`. -/
def register (now : Nat) (db : List UserRow) (p : UserCreate) :
    Except HTTPError UserSchema × List UserRow :=
  match create_user now db p with
  | (Except.ok u, db2) => (Except.ok (toUserSchema u), db2)
  | (Except.error e, db2) => (Except.error e, db2)

/-- `main.list_users`: superuser gate, then the user listing. -/
def list_users_endpoint (key now : Nat) (db : List UserRow) (t : PresentedToken)
    (skip limit : Nat) : Except HTTPError (List UserRow) :=
  match get_current_superuser key now db t with
  | Except.error e => Except.error e
  | Except.ok _ => Except.ok (get_users db skip limit)

/-- `main.get_user`: superuser gate, then lookup with 404 on absence. -/
def get_user_endpoint (key now : Nat) (db : List UserRow) (t : PresentedToken)
    (uid : Nat) : Except HTTPError UserRow :=
  match get_current_superuser key now db t with
  | Except.error e => Except.error e
  | Except.ok _ =>
    match get_user db uid with
    | none => Except.error ⟨404, "User not found"⟩
    | some u => Except.ok u

/-- `main.update_user`: superuser gate, then `crud.update_user`. -/
def update_user_endpoint (fault : Fault) (key tokNow now : Nat)
    (db : List UserRow) (t : PresentedToken) (uid : Nat) (payload : UserUpdate) :
    Except HTTPError UserRow × List UserRow :=
  match get_current_superuser key tokNow db t with
  | Except.error e => (Except.error e, db)
  | Except.ok _ => update_user fault now db uid payload

end SpecAuth

/-- Status code of an erroneous `Except` outcome, `none` on success. -/
def errStatusE {α : Type} : Except HTTPError α → Option Nat
  | Except.error e => some e.status_code
  | Except.ok _ => none

/-- A concrete table of fifteen employees with distinct ids and emails. -/
def sampleEmployees : List EmpRow :=
  [⟨1, some "E1", some "e1@x.com", none, none, 0⟩,
   ⟨2, some "E2", some "e2@x.com", none, none, 0⟩,
   ⟨3, some "E3", some "e3@x.com", none, none, 0⟩,
   ⟨4, some "E4", some "e4@x.com", none, none, 0⟩,
   ⟨5, some "E5", some "e5@x.com", none, none, 0⟩,
   ⟨6, some "E6", some "e6@x.com", none, none, 0⟩,
   ⟨7, some "E7", some "e7@x.com", none, none, 0⟩,
   ⟨8, some "E8", some "e8@x.com", none, none, 0⟩,
   ⟨9, some "E9", some "e9@x.com", none, none, 0⟩,
   ⟨10, some "E10", some "e10@x.com", none, none, 0⟩,
   ⟨11, some "E11", some "e11@x.com", none, none, 0⟩,
   ⟨12, some "E12", some "e12@x.com", none, none, 0⟩,
   ⟨13, some "E13", some "e13@x.com", none, none, 0⟩,
   ⟨14, some "E14", some "e14@x.com", none, none, 0⟩,
   ⟨15, some "E15", some "e15@x.com", none, none, 0⟩]

-- ===================== Theorems =====================

/-- C10: the issued token is the constant string, and validation succeeds
exactly on that constant, always yielding the admin principal — independent
of the data encoded, of any TTL, and of any store (neither function reads
them). -/
theorem authstub_constant_token_c10 :
    (∀ data : List (String × String), AuthStub.create_access_token data = "secret-token") ∧
    (∀ tok : String,
      AuthStub.get_current_user tok = Except.ok ⟨"admin"⟩ ↔ tok = "secret-token") := by
  refine ⟨fun _ => rfl, fun tok => ?_⟩
  constructor
  · intro h
    by_cases ht : tok = "secret-token"
    · exact ht
    · simp [AuthStub.get_current_user, ht] at h
  · intro h
    simp [AuthStub.get_current_user, h]

/-- C10 witness: concrete evaluation of both directions. -/
theorem authstub_constant_token_c10_witness :
    AuthStub.create_access_token [] = "secret-token" ∧
    AuthStub.get_current_user "secret-token" = Except.ok ⟨"admin"⟩ :=
  ⟨authstub_constant_token_c10.1 [],
   (authstub_constant_token_c10.2 "secret-token").mpr rfl⟩

/-- C1 (code bug): in the code as shipped, a token issued by
`create_access_token` is accepted by `get_current_user` unconditionally; both
functions are time-free, so validation cannot fail after any TTL has elapsed,
contradicting the claimed expiry semantics. -/
theorem authstub_token_never_expires_c1 :
    ∀ data : List (String × String),
      AuthStub.get_current_user (AuthStub.create_access_token data) =
        Except.ok ⟨"admin"⟩ :=
  fun _ => rfl

/-- C9: every User-shaped response is produced by `toUserSchema`, which is
invariant under the stored password hash, and every successful
`POST /api/auth/register` response is such a serialization — so the hash can
never reach a response body. -/
theorem user_response_hides_hash_c9 :
    (∀ (u : UserRow) (h : String),
      toUserSchema { u with hashed_password := h } = toUserSchema u) ∧
    (∀ (now : Nat) (db : List UserRow) (p : SpecAuth.UserCreate)
        (r : UserSchema) (db2 : List UserRow),
      SpecAuth.register now db p = (Except.ok r, db2) →
        ∃ u : UserRow, r = toUserSchema u) := by
  refine ⟨fun _ _ => rfl, fun now db p r db2 h => ?_⟩
  unfold SpecAuth.register SpecAuth.create_user at h
  by_cases h1 : db.any (fun u => u.username == p.username) = true
  · simp [h1] at h
  · by_cases h2 : db.any (fun u => u.email == p.email) = true
    · simp [h1, h2] at h
    · simp [h1, h2] at h
      exact ⟨_, h.1.symm⟩

/-- C9 witness: a concrete registration succeeds and its response is the
serialization of a row. -/
theorem user_response_hides_hash_c9_witness :
    toUserSchema { (⟨1, "a", "a@x.com", "h", none, true, false, 0, none⟩ : UserRow) with
        hashed_password := "h2" } =
      toUserSchema ⟨1, "a", "a@x.com", "h", none, true, false, 0, none⟩ ∧
    ∃ u : UserRow,
      (⟨"newuser", "newuser@example.com", none, 1, true, false, 5, none⟩ : UserSchema) =
        toUserSchema u := by
  refine ⟨user_response_hides_hash_c9.1 _ ("h2"), ?_⟩
  exact user_response_hides_hash_c9.2 5 []
    ⟨"newuser", "newuser@example.com", "NewUser123", none⟩
    ⟨"newuser", "newuser@example.com", none, 1, true, false, 5, none⟩
    [⟨1, "newuser", "newuser@example.com", hashPassword ("NewUser123"), none, true, false, 5, none⟩]
    rfl

/-- C2: current-principal resolution answers 401 both when the presented
token fails validation and when the token is valid but the resolved user's
active flag is false (no hypothesis on which of the two holds is needed
beyond the respective branch). -/
theorem current_principal_unauthorized_c2 :
    ∀ (key now : Nat) (db : List UserRow) (t : SpecAuth.PresentedToken),
      (SpecAuth.validate key now t = none →
        errStatusE (SpecAuth.get_current_active_user key now db t) = some 401) ∧
      (∀ (sub : String) (u : UserRow),
        SpecAuth.validate key now t = some sub →
        db.find? (fun x => x.username == sub) = some u →
        u.is_active = false →
        errStatusE (SpecAuth.get_current_active_user key now db t) = some 401) := by
  intro key now db t
  constructor
  · intro h
    simp [SpecAuth.get_current_active_user, h, errStatusE]
  · intro sub u hv hf hi
    simp [SpecAuth.get_current_active_user, hv, hf, hi, errStatusE]

/-- C2 witness: a malformed token and an inactive user's otherwise-valid
token are both answered with 401. -/
theorem current_principal_unauthorized_c2_witness :
    errStatusE (SpecAuth.get_current_active_user 7 0
      [⟨1, "bob", "b@x.com", "h", none, false, false, 0, none⟩]
      SpecAuth.PresentedToken.malformed) = some 401 ∧
    errStatusE (SpecAuth.get_current_active_user 7 0
      [⟨1, "bob", "b@x.com", "h", none, false, false, 0, none⟩]
      (SpecAuth.issue 7 "bob" 0 60)) = some 401 := by
  constructor
  · exact (current_principal_unauthorized_c2 7 0
      [⟨1, "bob", "b@x.com", "h", none, false, false, 0, none⟩]
      SpecAuth.PresentedToken.malformed).1 rfl
  · exact (current_principal_unauthorized_c2 7 0
      [⟨1, "bob", "b@x.com", "h", none, false, false, 0, none⟩]
      (SpecAuth.issue 7 "bob" 0 60)).2 "bob"
      ⟨1, "bob", "b@x.com", "h", none, false, false, 0, none⟩
      (by decide) (by decide) rfl

/-- C3: two login attempts, one against a store lacking the username and one
against a store holding it but with a non-verifying password, produce the
very same failure response: 401 with the one fixed detail string. -/
theorem login_uniform_failure_c3 :
    ∀ (key now ttl : Nat) (db1 db2 : List UserRow) (u1 u2 p1 p2 : String)
      (r : UserRow),
      db1.find? (fun x => x.username == u1) = none →
      db2.find? (fun x => x.username == u2) = some r →
      verifyPassword p2 r.hashed_password = false →
      SpecAuth.login key now ttl db1 u1 p1 = SpecAuth.login key now ttl db2 u2 p2 ∧
      SpecAuth.login key now ttl db1 u1 p1 =
        Except.error ⟨401, "Incorrect username or password"⟩ := by
  intro key now ttl db1 db2 u1 u2 p1 p2 r h1 h2 h3
  have e1 : SpecAuth.authenticate_user db1 u1 p1 = none := by
    unfold SpecAuth.authenticate_user
    rw [h1]
  have e2 : SpecAuth.authenticate_user db2 u2 p2 = none := by
    unfold SpecAuth.authenticate_user
    rw [h2]
    simp [h3]
  unfold SpecAuth.login
  rw [e1, e2]
  exact ⟨rfl, rfl⟩

/-- C3 witness: unknown username versus wrong password for an existing user,
at concrete stores. -/
theorem login_uniform_failure_c3_witness :
    SpecAuth.login 7 0 30 [] "ghost" "Whatever1" =
      SpecAuth.login 7 0 30
        [⟨1, "testuser", "t@x.com", hashPassword ("Test123"), none, true, false, 0, none⟩]
        "testuser" "WrongPass1" ∧
    SpecAuth.login 7 0 30 [] "ghost" "Whatever1" =
      Except.error ⟨401, "Incorrect username or password"⟩ :=
  login_uniform_failure_c3 7 0 30 []
    [⟨1, "testuser", "t@x.com", hashPassword ("Test123"), none, true, false, 0, none⟩]
    "ghost" "testuser" "Whatever1" "WrongPass1"
    ⟨1, "testuser", "t@x.com", hashPassword ("Test123"), none, true, false, 0, none⟩
    rfl (by decide) (by decide)

/-- C4: a resolved principal whose superuser flag is false is rejected by
each of the three user-administration endpoints with 403 — whatever its
active flag — and 403 is distinct from 401. -/
theorem superuser_gate_forbidden_c4 :
    ∀ (fault : Fault) (key tokNow now : Nat) (db : List UserRow)
      (t : SpecAuth.PresentedToken) (sub : String) (u : UserRow)
      (skip limit uid : Nat) (payload : UserUpdate),
      SpecAuth.validate key tokNow t = some sub →
      db.find? (fun x => x.username == sub) = some u →
      u.is_superuser = false →
      SpecAuth.list_users_endpoint key tokNow db t skip limit =
          Except.error ⟨403, "Not enough permissions"⟩ ∧
      SpecAuth.get_user_endpoint key tokNow db t uid =
          Except.error ⟨403, "Not enough permissions"⟩ ∧
      SpecAuth.update_user_endpoint fault key tokNow now db t uid payload =
          (Except.error ⟨403, "Not enough permissions"⟩, db) ∧
      (403 : Nat) ≠ 401 := by
  intro fault key tokNow now db t sub u skip limit uid payload hv hf hs
  have hg : SpecAuth.get_current_superuser key tokNow db t =
      Except.error ⟨403, "Not enough permissions"⟩ := by
    simp [SpecAuth.get_current_superuser, hv, hf, hs]
  refine ⟨?_, ?_, ?_, by decide⟩
  · simp [SpecAuth.list_users_endpoint, hg]
  · simp [SpecAuth.get_user_endpoint, hg]
  · simp [SpecAuth.update_user_endpoint, hg]

/-- C4 witness: an inactive non-superuser with a valid token gets 403 from
all three endpoints. -/
theorem superuser_gate_forbidden_c4_witness :
    SpecAuth.list_users_endpoint 7 0
        [⟨1, "bob", "b@x.com", "h", none, false, false, 0, none⟩]
        (SpecAuth.issue 7 "bob" 0 60) 0 10 =
      Except.error ⟨403, "Not enough permissions"⟩ ∧
    SpecAuth.get_user_endpoint 7 0
        [⟨1, "bob", "b@x.com", "h", none, false, false, 0, none⟩]
        (SpecAuth.issue 7 "bob" 0 60) 1 =
      Except.error ⟨403, "Not enough permissions"⟩ ∧
    SpecAuth.update_user_endpoint Fault.normal 7 0 3
        [⟨1, "bob", "b@x.com", "h", none, false, false, 0, none⟩]
        (SpecAuth.issue 7 "bob" 0 60) 1 ⟨none, none, none, none⟩ =
      (Except.error ⟨403, "Not enough permissions"⟩,
       [⟨1, "bob", "b@x.com", "h", none, false, false, 0, none⟩]) ∧
    (403 : Nat) ≠ 401 :=
  superuser_gate_forbidden_c4 Fault.normal 7 0 3
    [⟨1, "bob", "b@x.com", "h", none, false, false, 0, none⟩]
    (SpecAuth.issue 7 "bob" 0 60) "bob"
    ⟨1, "bob", "b@x.com", "h", none, false, false, 0, none⟩
    0 10 1 ⟨none, none, none, none⟩
    (by decide) (by decide) rfl

/-- C8: every mutating repository operation that returns an error leaves the
committed table exactly as it was — every failure branch either precedes the
commit or rolls it back, for any injected storage fault. -/
theorem mutations_rollback_on_error_c8 :
    ∀ (fault : Fault) (now : Nat) (edb : List EmpRow) (udb : List UserRow),
      (∀ (e : EmployeeCreate) (err : HTTPError) (db2 : List EmpRow),
        create_employee fault now edb e = (Except.error err, db2) → db2 = edb) ∧
      (∀ (eid : Nat) (u : EmployeeUpdate) (err : HTTPError) (db2 : List EmpRow),
        update_employee fault edb eid u = (Except.error err, db2) → db2 = edb) ∧
      (∀ (eid : Nat) (err : HTTPError) (db2 : List EmpRow),
        delete_employee fault edb eid = (Except.error err, db2) → db2 = edb) ∧
      (∀ (uid : Nat) (u : UserUpdate) (err : HTTPError) (db2 : List UserRow),
        update_user fault now udb uid u = (Except.error err, db2) → db2 = udb) := by
  intro fault now edb udb
  refine ⟨?_, ?_, ?_, ?_⟩
  · intro e err db2 h
    unfold create_employee at h
    split at h
    · exact (congrArg Prod.snd h).symm
    · split at h
      · simp at h
      · exact (congrArg Prod.snd h).symm
      · exact (congrArg Prod.snd h).symm
  · intro eid u err db2 h
    unfold update_employee at h
    split at h
    · exact (congrArg Prod.snd h).symm
    · split at h
      · exact (congrArg Prod.snd h).symm
      · split at h
        · simp at h
        · exact (congrArg Prod.snd h).symm
        · exact (congrArg Prod.snd h).symm
  · intro eid err db2 h
    unfold delete_employee at h
    split at h
    · exact (congrArg Prod.snd h).symm
    · split at h
      · simp at h
      · exact (congrArg Prod.snd h).symm
  · intro uid u err db2 h
    unfold update_user at h
    split at h
    · exact (congrArg Prod.snd h).symm
    · split at h
      · simp at h
      · exact (congrArg Prod.snd h).symm

/-- C8 witness: a duplicate-email creation fails and the table afterwards is
the original one. -/
theorem mutations_rollback_on_error_c8_witness :
    (create_employee Fault.normal 3
        [⟨1, some "Ann", some "ann@x.com", none, none, 0⟩]
        ⟨"Bob", "ann@x.com", none, none⟩).2 =
      [⟨1, some "Ann", some "ann@x.com", none, none, 0⟩] :=
  (mutations_rollback_on_error_c8 Fault.normal 3
      [⟨1, some "Ann", some "ann@x.com", none, none, 0⟩] []).1
    ⟨"Bob", "ann@x.com", none, none⟩ ⟨400, "Email already registered"⟩
    (create_employee Fault.normal 3
        [⟨1, some "Ann", some "ann@x.com", none, none, 0⟩]
        ⟨"Bob", "ann@x.com", none, none⟩).2
    rfl

/-- C5 counterexample: updating a user's email to one already used by a
different user is answered with 500, not with the claimed Conflict (400) —
`crud.update_user` has no uniqueness pre-check and its `SQLAlchemyError`
handler swallows the `IntegrityError` subclass. -/
theorem user_update_conflict_not_400_c5_counterexample :
    errStatus (update_user Fault.normal 9
      [⟨1, "u1", "a@x.com", "h1", none, true, false, 0, none⟩,
       ⟨2, "u2", "b@x.com", "h2", none, true, false, 0, none⟩]
      2 ⟨some ("a@x.com"), none, none, none⟩) = some 500 ∧
    some (500 : Nat) ≠ some 400 := by
  exact ⟨by decide, by decide⟩

/-- C5 amended: creation behaves as claimed for both collections — employee
creation rejects a used email before insertion with 400 and still surfaces a
uniqueness race at commit as 400, user registration rejects a used username
or email with 400, and employee update rejects changing the email to one
used by a different employee with 400; only user update deviates: with no
pre-check, a duplicate-email user update surfaces the storage-level
constraint violation as 500, not Conflict. -/
theorem uniqueness_conflict_amended_c5 :
    (∀ (fault : Fault) (now : Nat) (db : List EmpRow) (e : EmployeeCreate),
      db.any (fun r => r.email == some e.email) = true →
      create_employee fault now db e =
        (Except.error ⟨400, "Email already registered"⟩, db)) ∧
    (∀ (now : Nat) (db : List EmpRow) (e : EmployeeCreate),
      db.any (fun r => r.email == some e.email) = false →
      create_employee Fault.integrity now db e =
        (Except.error ⟨400, "Email already exists"⟩, db)) ∧
    (∀ (fault : Fault) (db : List EmpRow) (eid : Nat) (u : EmployeeUpdate)
        (r : EmpRow) (v : Option String),
      get_employee db eid = some r →
      u.email = some v →
      v ≠ r.email →
      db.any (fun r2 => r2.email == v && r2.id != eid) = true →
      update_employee fault db eid u =
        (Except.error ⟨400, "Email already registered"⟩, db)) ∧
    (∀ (db : List EmpRow) (eid : Nat) (u : EmployeeUpdate) (r : EmpRow),
      get_employee db eid = some r →
      u.email = none →
      update_employee Fault.integrity db eid u =
        (Except.error ⟨400, "Email already exists"⟩, db)) ∧
    (∀ (now : Nat) (db : List UserRow) (p : SpecAuth.UserCreate),
      db.any (fun x => x.username == p.username) = true →
      SpecAuth.create_user now db p =
        (Except.error ⟨400, "Username already registered"⟩, db)) ∧
    (∀ (now : Nat) (db : List UserRow) (p : SpecAuth.UserCreate),
      db.any (fun x => x.username == p.username) = false →
      db.any (fun x => x.email == p.email) = true →
      SpecAuth.create_user now db p =
        (Except.error ⟨400, "Email already registered"⟩, db)) ∧
    (∀ (now : Nat) (db : List UserRow) (uid : Nat) (u : UserUpdate)
        (r w : UserRow) (v : String),
      get_user db uid = some r →
      u.email = some v →
      w ∈ db → w.id ≠ uid → w.email = v →
      update_user Fault.normal now db uid u =
        (Except.error ⟨500, "Database error occurred"⟩, db)) := by
  refine ⟨?_, ?_, ?_, ?_, ?_, ?_, ?_⟩
  · intro fault now db e hpre
    unfold create_employee
    rw [if_pos hpre]
  · intro now db e hpre
    unfold create_employee
    rw [if_neg (by simp [hpre])]
    rfl
  · intro fault db eid u r v hfind hmail hne hany
    unfold update_employee
    rw [hfind]
    have hc : empEmailConflict db eid u r = true := by
      unfold empEmailConflict
      rw [hmail]
      simp [bne_iff_ne, hne, hany]
    dsimp only
    rw [if_pos hc]
  · intro db eid u r hfind hmail
    unfold update_employee
    rw [hfind]
    have hc : empEmailConflict db eid u r = false := by
      unfold empEmailConflict
      rw [hmail]
    dsimp only
    rw [if_neg (by simp [hc])]
    rfl
  · intro now db p hpre
    unfold SpecAuth.create_user
    rw [if_pos hpre]
  · intro now db p hu he
    unfold SpecAuth.create_user
    rw [if_neg (by simp [hu]), if_pos he]
  · intro now db uid u r w v hfind hmail hw hwid hwe
    unfold get_user at hfind
    have hrmem : r ∈ db := List.mem_of_find?_eq_some hfind
    have hrid0 := List.find?_some hfind
    have hrid2 : r.id = uid := by simpa using hrid0
    have hwid2 : (w.id == uid) = false := by simp [hwid]
    have hr2mem :
        applyUserUpdate now r u ∈ stagedUser now db uid u := by
      unfold stagedUser
      have := List.mem_map_of_mem
        (fun row : UserRow => if row.id == uid then applyUserUpdate now row u else row) hrmem
      simpa [hrid2] using this
    have hwmem : w ∈ stagedUser now db uid u := by
      unfold stagedUser
      have := List.mem_map_of_mem
        (fun row : UserRow => if row.id == uid then applyUserUpdate now row u else row) hw
      simpa [hwid2] using this
    have hremail : (applyUserUpdate now r u).email = v := by
      simp [applyUserUpdate, hmail]
    have hne : applyUserUpdate now r u ≠ w := by
      intro hEq
      have hid : (applyUserUpdate now r u).id = uid := by
        simpa [applyUserUpdate] using hrid2
      rw [hEq] at hid
      exact hwid hid
    have hbad : ¬ userTableOk (stagedUser now db uid u) := by
      intro hok
      have hinj := List.inj_on_of_nodup_map hok.2
      exact hne (hinj hr2mem hwmem (by rw [hremail, hwe]))
    unfold update_user get_user
    rw [hfind]
    dsimp only
    have hcommit : commitUser Fault.normal (stagedUser now db uid u) =
        Except.error DbError.integrity := by
      unfold commitUser
      dsimp only
      rw [if_neg hbad]
    rw [hcommit]

/-- C5 amended witness: all seven branches at concrete stores. -/
theorem uniqueness_conflict_amended_c5_witness :
    create_employee Fault.normal 3
        [⟨1, some "Ann", some "ann@x.com", none, none, 0⟩]
        ⟨"Bob", "ann@x.com", none, none⟩ =
      (Except.error ⟨400, "Email already registered"⟩,
       [⟨1, some "Ann", some "ann@x.com", none, none, 0⟩]) ∧
    create_employee Fault.integrity 3
        [⟨1, some "Ann", some "ann@x.com", none, none, 0⟩]
        ⟨"Bob", "bob@x.com", none, none⟩ =
      (Except.error ⟨400, "Email already exists"⟩,
       [⟨1, some "Ann", some "ann@x.com", none, none, 0⟩]) ∧
    update_employee Fault.normal
        [⟨1, some "Ann", some "ann@x.com", none, none, 0⟩,
         ⟨2, some "Bob", some "bob@x.com", none, none, 0⟩]
        2 ⟨none, some (some "ann@x.com"), none, none⟩ =
      (Except.error ⟨400, "Email already registered"⟩,
       [⟨1, some "Ann", some "ann@x.com", none, none, 0⟩,
        ⟨2, some "Bob", some "bob@x.com", none, none, 0⟩]) ∧
    update_employee Fault.integrity
        [⟨1, some "Ann", some "ann@x.com", none, none, 0⟩]
        1 ⟨some (some "Anne"), none, none, none⟩ =
      (Except.error ⟨400, "Email already exists"⟩,
       [⟨1, some "Ann", some "ann@x.com", none, none, 0⟩]) ∧
    SpecAuth.create_user 4
        [⟨1, "u1", "a@x.com", "h1", none, true, false, 0, none⟩]
        ⟨"u1", "c@x.com", "Pass1234", none⟩ =
      (Except.error ⟨400, "Username already registered"⟩,
       [⟨1, "u1", "a@x.com", "h1", none, true, false, 0, none⟩]) ∧
    SpecAuth.create_user 4
        [⟨1, "u1", "a@x.com", "h1", none, true, false, 0, none⟩]
        ⟨"u3", "a@x.com", "Pass1234", none⟩ =
      (Except.error ⟨400, "Email already registered"⟩,
       [⟨1, "u1", "a@x.com", "h1", none, true, false, 0, none⟩]) ∧
    update_user Fault.normal 9
        [⟨1, "u1", "a@x.com", "h1", none, true, false, 0, none⟩,
         ⟨2, "u2", "b@x.com", "h2", none, true, false, 0, none⟩]
        2 ⟨some ("a@x.com"), none, none, none⟩ =
      (Except.error ⟨500, "Database error occurred"⟩,
       [⟨1, "u1", "a@x.com", "h1", none, true, false, 0, none⟩,
        ⟨2, "u2", "b@x.com", "h2", none, true, false, 0, none⟩]) := by
  refine ⟨?_, ?_, ?_, ?_, ?_, ?_, ?_⟩
  · exact uniqueness_conflict_amended_c5.1 Fault.normal 3 _ _ (by decide)
  · exact uniqueness_conflict_amended_c5.2.1 3 _ _ (by decide)
  · exact uniqueness_conflict_amended_c5.2.2.1 Fault.normal _ 2 _
      ⟨2, some "Bob", some "bob@x.com", none, none, 0⟩ (some "ann@x.com")
      (by decide) rfl (by decide) (by decide)
  · exact uniqueness_conflict_amended_c5.2.2.2.1 _ 1 _
      ⟨1, some "Ann", some "ann@x.com", none, none, 0⟩ (by decide) rfl
  · exact uniqueness_conflict_amended_c5.2.2.2.2.1 4 _ _ (by decide)
  · exact uniqueness_conflict_amended_c5.2.2.2.2.2.1 4 _ _ (by decide) (by decide)
  · exact uniqueness_conflict_amended_c5.2.2.2.2.2.2 9 _ 2 _
      ⟨2, "u2", "b@x.com", "h2", none, true, false, 0, none⟩
      ⟨1, "u1", "a@x.com", "h1", none, true, false, 0, none⟩
      "a@x.com" (by decide) rfl (by decide) (by decide) rfl

/-- C6: a successful employee update mutates exactly the fields present in
the payload — every omitted field keeps its prior value and a present
department is applied; a department-only update succeeds under the table
invariant; and an explicit `null` department is observably different from an
omitted one. -/
theorem employee_update_frame_c6 :
    (∀ (fault : Fault) (db : List EmpRow) (eid : Nat) (u : EmployeeUpdate)
        (r res : EmpRow) (db2 : List EmpRow),
      get_employee db eid = some r →
      update_employee fault db eid u = (Except.ok res, db2) →
      (u.name = none → res.name = r.name) ∧
      (u.email = none → res.email = r.email) ∧
      (u.department = none → res.department = r.department) ∧
      (u.role = none → res.role = r.role) ∧
      (∀ v, u.department = some v → res.department = v)) ∧
    (∀ (db : List EmpRow) (eid : Nat) (r : EmpRow) (v : String),
      empTableOk db →
      get_employee db eid = some r →
      ∃ db2, update_employee Fault.normal db eid ⟨none, none, some (some v), none⟩ =
        (Except.ok { r with department := some v }, db2)) ∧
    ((update_employee Fault.normal
        [⟨1, some "Ann", some "ann@x.com", some "Sales", some "Eng", 0⟩]
        1 ⟨none, none, some none, none⟩).2 ≠
      (update_employee Fault.normal
        [⟨1, some "Ann", some "ann@x.com", some "Sales", some "Eng", 0⟩]
        1 ⟨none, none, none, none⟩).2) := by
  refine ⟨?_, ?_, by decide⟩
  · intro fault db eid u r res db2 hfind h
    unfold update_employee at h
    rw [hfind] at h
    dsimp only at h
    split at h
    · simp at h
    · split at h
      · have hres : res = applyEmpUpdate r u := by
          have hfst := congrArg Prod.fst h
          simpa using hfst.symm
        subst hres
        refine ⟨?_, ?_, ?_, ?_, ?_⟩
        · intro h1; simp [applyEmpUpdate, h1]
        · intro h1; simp [applyEmpUpdate, h1]
        · intro h1; simp [applyEmpUpdate, h1]
        · intro h1; simp [applyEmpUpdate, h1]
        · intro v h1; simp [applyEmpUpdate, h1]
      · simp at h
      · simp at h
  · intro db eid r v hok hfind
    have hmapfields : ∀ row : EmpRow,
        (if row.id == eid then applyEmpUpdate row ⟨none, none, some (some v), none⟩
         else row).name = row.name ∧
        (if row.id == eid then applyEmpUpdate row ⟨none, none, some (some v), none⟩
         else row).email = row.email := by
      intro row
      by_cases hr : (row.id == eid) = true <;> simp [hr, applyEmpUpdate]
    have hstageok : empTableOk (stagedEmp db eid ⟨none, none, some (some v), none⟩) := by
      constructor
      · intro x hx
        unfold stagedEmp at hx
        rw [List.mem_map] at hx
        obtain ⟨row, hrow, rfl⟩ := hx
        refine ⟨?_, ?_⟩
        · rw [(hmapfields row).1]
          exact (hok.1 row hrow).1
        · rw [(hmapfields row).2]
          exact (hok.1 row hrow).2
      · unfold stagedEmp
        rw [List.map_map]
        have hmc :
            db.map ((fun x : EmpRow => x.email) ∘
              (fun row => if row.id == eid then
                applyEmpUpdate row ⟨none, none, some (some v), none⟩ else row)) =
            db.map (fun x : EmpRow => x.email) :=
          List.map_congr_left (fun a _ => (hmapfields a).2)
        rw [hmc]
        exact hok.2
    refine ⟨stagedEmp db eid ⟨none, none, some (some v), none⟩, ?_⟩
    unfold update_employee
    rw [hfind]
    dsimp only
    rw [if_neg (by simp [empEmailConflict])]
    have hcommit : commitEmp Fault.normal (stagedEmp db eid ⟨none, none, some (some v), none⟩) =
        Except.ok (stagedEmp db eid ⟨none, none, some (some v), none⟩) := by
      unfold commitEmp
      dsimp only
      rw [if_pos hstageok]
    rw [hcommit]
    have happ : applyEmpUpdate r ⟨none, none, some (some v), none⟩ =
        { r with department := some v } := by
      simp [applyEmpUpdate]
    rw [happ]

/-- C6 witness: a department-only update of a concrete employee leaves name
unchanged and succeeds with exactly the department replaced. -/
theorem employee_update_frame_c6_witness :
    ((⟨1, some "Ann", some "ann@x.com", some "X", some "Eng", 0⟩ : EmpRow).name =
      (⟨1, some "Ann", some "ann@x.com", some "Sales", some "Eng", 0⟩ : EmpRow).name) ∧
    ∃ db2, update_employee Fault.normal
        [⟨1, some "Ann", some "ann@x.com", some "Sales", some "Eng", 0⟩]
        1 ⟨none, none, some (some "X"), none⟩ =
      (Except.ok { (⟨1, some "Ann", some "ann@x.com", some "Sales", some "Eng", 0⟩ : EmpRow) with
        department := some "X" }, db2) := by
  constructor
  · exact (employee_update_frame_c6.1 Fault.normal
      [⟨1, some "Ann", some "ann@x.com", some "Sales", some "Eng", 0⟩] 1
      ⟨none, none, some (some "X"), none⟩
      ⟨1, some "Ann", some "ann@x.com", some "Sales", some "Eng", 0⟩
      ⟨1, some "Ann", some "ann@x.com", some "X", some "Eng", 0⟩
      [⟨1, some "Ann", some "ann@x.com", some "X", some "Eng", 0⟩]
      (by decide) rfl).1 rfl
  · exact employee_update_frame_c6.2.1
      [⟨1, some "Ann", some "ann@x.com", some "Sales", some "Eng", 0⟩] 1
      ⟨1, some "Ann", some "ann@x.com", some "Sales", some "Eng", 0⟩
      "X" (by decide) (by decide)

/-- C7: whenever the filters match exactly fifteen employees, page 1 with
limit 10 returns exactly ten rows and page 2 exactly five, both sorted by id
ascending, while the reported total is fifteen on every page. -/
theorem listing_pagination_c7 :
    ∀ (db : List EmpRow) (department role search : Option String),
      get_employees_count db department role search = 15 →
      (list_employees db 1 10 department role search).employees.length = 10 ∧
      (list_employees db 2 10 department role search).employees.length = 5 ∧
      List.Sorted empLe (list_employees db 1 10 department role search).employees ∧
      List.Sorted empLe (list_employees db 2 10 department role search).employees ∧
      (∀ page : Nat, 1 ≤ page →
        (list_employees db page 10 department role search).total = 15) := by
  intro db d ro s h
  unfold get_employees_count at h
  have hperm := List.perm_insertionSort empLe (db.filter (empMatches d ro s))
  have hlen : ((db.filter (empMatches d ro s)).insertionSort empLe).length = 15 :=
    hperm.length_eq.trans h
  have hsorted := List.sorted_insertionSort empLe (db.filter (empMatches d ro s))
  refine ⟨?_, ?_, ?_, ?_, ?_⟩
  · simp only [list_employees, get_employees]
    rw [List.length_take, List.length_drop, hlen]
    decide
  · simp only [list_employees, get_employees]
    rw [List.length_take, List.length_drop, hlen]
    decide
  · simp only [list_employees, get_employees]
    exact List.Pairwise.sublist
      ((List.take_sublist _ _).trans (List.drop_sublist _ _)) hsorted
  · simp only [list_employees, get_employees]
    exact List.Pairwise.sublist
      ((List.take_sublist _ _).trans (List.drop_sublist _ _)) hsorted
  · intro page _
    simp only [list_employees, get_employees_count]
    exact h

/-- C7 witness: the concrete fifteen-employee table with no filters. -/
theorem listing_pagination_c7_witness :
    (list_employees sampleEmployees 1 10 none none none).employees.length = 10 ∧
    (list_employees sampleEmployees 2 10 none none none).employees.length = 5 ∧
    List.Sorted empLe (list_employees sampleEmployees 1 10 none none none).employees ∧
    List.Sorted empLe (list_employees sampleEmployees 2 10 none none none).employees ∧
    (list_employees sampleEmployees 3 10 none none none).total = 15 := by
  have h := listing_pagination_c7 sampleEmployees none none none (by decide)
  exact ⟨h.1, h.2.1, h.2.2.1, h.2.2.2.1, h.2.2.2.2 3 (by decide)⟩
